import Mathlib

/-!
Verification of the PoE2 flips backend service (`main.py`, service variant v13).

The file shallowly embeds the pieces of the program the specification talks
about:

* the trade-URL parser `parse_trade_url` (regex
  `/trade2/search/(?P<realm>[^/]+)/(?P<league>[^/]+)/(?P<qid>[^/?#]+)`,
  searched anywhere in the input, plus the bare-id fallback),
* the listing mapper `map_listing`,
* the three deals endpoints `deals`, `deals_from_env`, `deals_by_url`
  with the two outbound marketplace calls modelled as explicit
  `CallOutcome` parameters (the would-be result of each HTTP call),
* the listing scorer, which is described by the specification but absent
  from the source tree, modelled from the spec.

Python/JSON values are modelled by the inductive `Json`; Python's `None`
and JSON `null` are the same object at runtime, so both are `Json.null`.
JSON numbers are modelled as integers (`Json.num : Int → Json`): the code
performs no arithmetic on them, they are only tested for truthiness and
rendered into f-strings, and every number the claims exercise is integral.
-/

set_option linter.unusedVariables false
set_option linter.unnecessarySimpa false

/-- A Python/JSON value as it appears after `r.json()`. -/
inductive Json where
  | null
  | bool (b : Bool)
  | num (n : Int)
  | str (s : String)
  | arr (xs : List Json)
  | obj (fields : List (String × Json))

/-- Python truthiness (`bool(v)`) of a JSON value: `None`, `False`, `0`,
`""`, `[]` and `{}` are falsy, everything else truthy. -/
def jtruthy : Json → Bool
  | .null => false
  | .bool b => b
  | .num n => n != 0
  | .str s => s != ""
  | .arr xs => !xs.isEmpty
  | .obj fs => !fs.isEmpty

/-- Is the value `None`/`null`? -/
def isNull : Json → Bool
  | .null => true
  | _ => false

/-- First-match association lookup, as in a Python dict built from JSON
(keys are unique in practice; lookup takes the first binding). -/
def jlook : List (String × Json) → String → Option Json
  | [], _ => none
  | (k, v) :: rest, key => if k = key then some v else jlook rest key

/-- Python's `v or d`: `v` when truthy, else `d`. -/
def jor (v d : Json) : Json := if jtruthy v then v else d

/-- The `x.get(key, default) or default` idiom used for nested dicts
(`{}` as the default): resolves an optional field to a dict-or-default. -/
def pyDictD (o : Option Json) : Json := jor (o.getD (Json.obj [])) (Json.obj [])

/-- A Python exception escaping a block of code: either a
`requests.HTTPError` raised by `raise_for_status` (carrying the response
status code and body text), or any other exception, identified by its
class name (as used by `type(e).__name__`). -/
inductive PyError where
  | httpError (status : Nat) (text : String)
  | exc (name : String)

/-- `d.get(key, default)`, raising `AttributeError` when the receiver is
not a dict (Python's `.get` only exists on `dict`). The stored value is
returned even when it is `null` (Python's `None`). -/
def dget : Json → String → Json → Except PyError Json
  | .obj fs, k, d => .ok ((jlook fs k).getD d)
  | _, _, _ => .error (.exc "AttributeError")

/-- Python string slicing `s[:n]` (by code points). -/
def pytake (s : String) (n : Nat) : String := String.mk (s.data.take n)

/-- Render a value inside an f-string, like Python's `str()`.
Scalars are rendered exactly as Python renders them; for containers the
rendering is approximated (the service's listing fields are scalars and
no claim evaluates a container rendering). -/
def pyStr : Json → String
  | .null => "None"
  | .bool true => "True"
  | .bool false => "False"
  | .num n => toString n
  | .str s => s
  | .arr xs => "[" ++ toString xs.length ++ " values]"
  | .obj fs => "\x7b" ++ toString fs.length ++ " fields\x7d"

/-- Executable substring test: does `needle` occur contiguously in the
character list? -/
def listInfix (needle : List Char) : List Char → Bool
  | [] => needle.isEmpty
  | c :: rest => needle.isPrefixOf (c :: rest) || listInfix needle rest

/-- Does `hay` contain `needle` as a substring (Python's `needle in hay`)? -/
def strContains (hay needle : String) : Bool := listInfix needle.data hay.data

/-! ## Env configuration (module-level constants, lines 12-19)

`REALM = os.getenv("REALM", "poe2")`,
`LEAGUE_RAW = os.getenv("LEAGUE", "Dawn of the Hunt")`,
`LEAGUE_ENC = quote(LEAGUE_RAW, safe="")`.
The functions below are parametrized by the configured realm and encoded
league; the default values are also defined so concrete claims can be
evaluated against the program as configured out of the box. -/

/-- One hex digit, uppercase, as `urllib.parse.quote` emits. -/
def hexDigit (n : Nat) : Char :=
  if n < 10 then Char.ofNat (48 + n) else Char.ofNat (55 + n)

/-- `urllib.parse.quote` on one character with `safe=""`: letters, digits
and `_.-~` pass through, everything else is percent-encoded. (Faithful
for ASCII input; the default league name is ASCII.) -/
def quoteChar (c : Char) : List Char :=
  if c.isAlpha ∨ c.isDigit ∨ c = '_' ∨ c = '.' ∨ c = '-' ∨ c = '~' then [c]
  else ['%', hexDigit (c.toNat / 16), hexDigit (c.toNat % 16)]

/-- `urllib.parse.quote(s, safe="")`. -/
def quote (s : String) : String := String.mk (s.data.map quoteChar).flatten

def REALM_default : String := "poe2"

def LEAGUE_RAW_default : String := "Dawn of the Hunt"

def LEAGUE_ENC_default : String := quote LEAGUE_RAW_default

/-! ## The trade-URL parser (lines 39-54)

`TRADE_URL_RE = re.compile(r"/trade2/search/(?P<realm>[^/]+)/(?P<league>[^/]+)/(?P<qid>[^/?#]+)")`
and `TRADE_URL_RE.search(...)`. Because every character class in the
pattern excludes `/` and each segment is followed by a literal `/`, the
regex engine has no real backtracking freedom: at a given start position
the pattern matches iff the literal `/trade2/search/` is present and the
three maximal segment runs are non-empty. `re.search` returns the
leftmost position where the whole pattern matches. `matchHere` decides a
match at one position; `searchFrom` scans left to right. -/

def litChars : List Char := "/trade2/search/".data

/-- Attempt the regex match anchored at the start of `s`. -/
def matchHere (s : List Char) : Option (String × String × String) :=
  if litChars.isPrefixOf s then
    let rest := s.drop litChars.length
    let r := rest.takeWhile (fun c => c != '/')
    let rest1 := rest.dropWhile (fun c => c != '/')
    if r.isEmpty then none else
    match rest1 with
    | '/' :: rest2 =>
      let l := rest2.takeWhile (fun c => c != '/')
      let rest3 := rest2.dropWhile (fun c => c != '/')
      if l.isEmpty then none else
      match rest3 with
      | '/' :: rest4 =>
        let q := rest4.takeWhile (fun c => c != '/' && c != '?' && c != '#')
        if q.isEmpty then none else some (String.mk r, String.mk l, String.mk q)
      | _ => none
    | _ => none
  else none

/-- `re.search`: leftmost position where the pattern matches. -/
def searchFrom : List Char → Option (String × String × String)
  | [] => none
  | c :: rest =>
    match matchHere (c :: rest) with
    | some t => some t
    | none => searchFrom rest

/-- `parse_trade_url(url_or_id)` (lines 41-54), parametrized by the
configured `REALM`/`LEAGUE_ENC` used by the bare-id branch. -/
def parse_trade_url (REALM LEAGUE_ENC : String) (url_or_id : String) :
    Option (String × String × String) :=
  if url_or_id = "" then none
  else
    match searchFrom url_or_id.data with
    | some t => some t
    | none =>
      if url_or_id.data.contains '/' = false ∧ 6 ≤ url_or_id.length then
        some (REALM, LEAGUE_ENC, url_or_id)
      else none

example : parse_trade_url "poe2" "L" "abc123" = some ("poe2", "L", "abc123") := by decide
example : parse_trade_url "poe2" "L" "abc12" = none := by decide
example : parse_trade_url "poe2" "L"
    "https://www.pathofexile.com/trade2/search/poe2/Standard/QQfoo?x=1" =
    some ("poe2", "Standard", "QQfoo") := by decide
example : parse_trade_url "poe2" "L" "/search/poe2/Standard/abc123" = none := by decide

/-! ## The listing mapper (lines 90-106)

```
def map_listing(res_item: dict) -> dict:
    listing = res_item.get("listing", {}) or {}
    item = res_item.get("item", {}) or {}
    price = listing.get("price", {}) or {}
    amount = price.get("amount")
    currency = price.get("currency")
    return { ... }
```
Field accesses are sequenced in source order inside `Except PyError`; an
access on a non-dict raises `AttributeError` exactly as in Python. -/

/-- The prefix of the reconstructed trade URL,
`f"https://www.pathofexile.com/trade2/search/{REALM}/{LEAGUE_ENC}/..."`. -/
def tradeUrlPrefix (REALM LEAGUE_ENC : String) : String :=
  "https://www.pathofexile.com/trade2/search/" ++ REALM ++ "/" ++ LEAGUE_ENC ++ "/"

/-- `f"{amount}{currency}" if amount is not None and currency else ""`
(line 102). -/
def priceStrOf (amount currency : Json) : String :=
  if !isNull amount && jtruthy currency then pyStr amount ++ pyStr currency else ""

/-- `map_listing` (lines 90-106), parametrized by the configured
`REALM`/`LEAGUE_ENC` globals read by the trade-URL f-string. -/
def map_listing (REALM LEAGUE_ENC : String) (res_item : Json) : Except PyError Json := do
  let listing := jor (← dget res_item "listing" (Json.obj [])) (Json.obj [])
  let item := jor (← dget res_item "item" (Json.obj [])) (Json.obj [])
  let price := jor (← dget listing "price" (Json.obj [])) (Json.obj [])
  let amount ← dget price "amount" Json.null
  let currency ← dget price "currency" Json.null
  let idv ← dget res_item "id" Json.null
  let nameRaw ← dget item "name" Json.null
  let typeRaw ← dget item "typeLine" Json.null
  let account := jor (← dget listing "account" Json.null) (Json.obj [])
  let seller ← dget account "name" (Json.str "")
  let indexed ← dget listing "indexed" Json.null
  let idForUrl ← dget res_item "id" (Json.str "")
  pure (Json.obj [
    ("id", idv),
    ("name", jor nameRaw (Json.str "")),
    ("baseType", jor typeRaw (Json.str "")),
    ("price", amount),
    ("currency", currency),
    ("priceStr", Json.str (priceStrOf amount currency)),
    ("seller", seller),
    ("listedAt", indexed),
    ("tradeUrl", Json.str (tradeUrlPrefix REALM LEAGUE_ENC ++ pyStr idForUrl))])

/-- Project one field out of a successfully mapped listing. -/
def mlField (REALM LEAGUE_ENC : String) (res_item : Json) (key : String) : Option Json :=
  match map_listing REALM LEAGUE_ENC res_item with
  | .ok (.obj fs) => jlook fs key
  | _ => none

/-! ## Outbound HTTP calls (lines 56-88)

The transport layer is out of scope: each `requests.get`/`requests.post`
is modelled by a `CallOutcome` parameter holding either the response the
call would produce (final status code, body text, parsed JSON body) or
the name of the transport-level exception it would raise. -/

/-- The response a `requests` call yields. -/
structure HttpResponse where
  status : Nat
  text : String
  body : Json

/-- Result of performing one outbound HTTP call. -/
inductive CallOutcome where
  | resp (r : HttpResponse)
  | err (excName : String)

/-- `r.raise_for_status()`: raises `requests.HTTPError` exactly for
status codes 400-599. -/
def raise_for_status (r : HttpResponse) : Except PyError HttpResponse :=
  if 400 ≤ r.status ∧ r.status < 600 then .error (.httpError r.status r.text) else .ok r

/-- `poe_search_by_id` (lines 76-80): GET, `raise_for_status`, `r.json()`. -/
def poe_search_by_id (o : CallOutcome) : Except PyError Json :=
  match o with
  | .err n => .error (.exc n)
  | .resp r => do
    let r2 ← raise_for_status r
    pure r2.body

/-- `poe_search_by_name_or_type` (lines 56-74): POST by `type`; when the
status is not 200, POST again by `name` and `raise_for_status` that one.
Returns the mode string and the parsed body. -/
def poe_search_by_name_or_type (o1 o2 : CallOutcome) : Except PyError (String × Json) :=
  match o1 with
  | .err n => .error (.exc n)
  | .resp r =>
    if r.status = 200 then .ok ("type", r.body)
    else
      match o2 with
      | .err n => .error (.exc n)
      | .resp r2 => do
        let r3 ← raise_for_status r2
        pure ("name", r3.body)

/-- `','.join(ids)` type-checks its elements: joining a list containing a
non-string raises `TypeError`. Returns the id strings. -/
def joinIds (ids : List Json) : Except PyError (List String) :=
  ids.mapM fun v =>
    match v with
    | .str s => .ok s
    | _ => .error (.exc "TypeError")

/-- `poe_fetch` (lines 82-88): short-circuits to `{"result": []}` on an
empty id list, otherwise builds the URL (which joins the ids), performs
the GET and `raise_for_status`. -/
def poe_fetch (ids : List Json) (o : CallOutcome) : Except PyError Json :=
  if ids.isEmpty then .ok (Json.obj [("result", Json.arr [])])
  else do
    let _ ← joinIds ids
    match o with
    | .err n => .error (.exc n)
    | .resp r => do
      let r2 ← raise_for_status r
      pure r2.body

/-! ## The deals routes (lines 123-197) -/

/-- The JSON body a deals route returns; absent keys are `none`. -/
structure DealsResponse where
  items : List Json := []
  error : Option String := none
  details : Option String := none
  note : Option String := none
  mode : Option String := none
  total : Option Json := none
  search_url : Option String := none

/-- The `except requests.HTTPError` / `except Exception` handlers shared
by all three routes: `{"items": [], "error": f"http_error:{code}",
"details": (e.response.text or "")[:200]}` and
`{"items": [], "error": f"exception:{type(e).__name__}"}`. -/
def errResponse : PyError → DealsResponse
  | .httpError status text =>
    { items := [], error := some ("http_error:" ++ toString status),
      details := some (pytake text 200) }
  | .exc n => { items := [], error := some ("exception:" ++ n) }

/-- Wrap a route body in its try/except. -/
def handle (body : Except PyError DealsResponse) : DealsResponse :=
  match body with
  | .ok r => r
  | .error e => errResponse e

/-- `(search.get("result") or [])[:limit]`: a falsy value becomes `[]`;
a list is sliced; a string is sliced into its characters (each a 1-char
string, as Python slicing and joining would treat them); slicing any
other truthy value raises `TypeError`. -/
def sliceIds (resultRaw : Json) (limit : Nat) : Except PyError (List Json) :=
  match jor resultRaw (Json.arr []) with
  | .arr xs => .ok (xs.take limit)
  | .str s => .ok ((s.data.take limit).map fun c => Json.str (String.mk [c]))
  | _ => .error (.exc "TypeError")

/-- Iterating `for r in (fetched.get("result") or [])`: a list yields its
elements, a string its 1-char strings, a dict its keys; iterating any
other truthy value raises `TypeError`. -/
def iterElems (coll : Json) : Except PyError (List Json) :=
  match coll with
  | .arr xs => .ok xs
  | .str s => .ok (s.data.map fun c => Json.str (String.mk [c]))
  | .obj fs => .ok (fs.map fun kv => Json.str kv.1)
  | _ => .error (.exc "TypeError")

/-- `fetched = poe_fetch(ids, qid)` followed by
`[map_listing(r) for r in (fetched.get("result") or [])]`. -/
def fetchAndMap (REALM LEAGUE_ENC : String) (ids : List Json) (oFetch : CallOutcome) :
    Except PyError (List Json) := do
  let fetched ← poe_fetch ids oFetch
  let resultRaw ← dget fetched "result" Json.null
  let elems ← iterElems (jor resultRaw (Json.arr []))
  elems.mapM (map_listing REALM LEAGUE_ENC)

/-- `item or DEFAULT_ITEM` for the optional query parameter. -/
def pyOrStr (item : Option String) (dflt : String) : String :=
  match item with
  | some s => if s = "" then dflt else s
  | none => dflt

/-- Python's `str.strip()`: remove whitespace from both ends. -/
def pyStrip (s : String) : String :=
  String.mk (((s.data.dropWhile Char.isWhitespace).reverse.dropWhile
    Char.isWhitespace).reverse)

/-- The try-block of `/deals` (lines 129-137). -/
def deals_body (REALM LEAGUE_ENC : String) (limit : Nat) (o1 o2 oFetch : CallOutcome) :
    Except PyError DealsResponse := do
  let ws ← poe_search_by_name_or_type o1 o2
  let which := ws.1
  let search := ws.2
  let qid ← dget search "id" Json.null
  let resultRaw ← dget search "result" Json.null
  let ids ← sliceIds resultRaw limit
  if !jtruthy qid || ids.isEmpty then
    pure { items := [], note := some ("search_ok_but_no_ids (mode=" ++ which ++ ")") }
  else do
    let mapped ← fetchAndMap REALM LEAGUE_ENC ids oFetch
    let t ← dget search "total" Json.null
    pure { items := mapped.take limit, mode := some which, total := some t }

/-- `GET /deals` (lines 123-147). -/
def deals (DEFAULT_ITEM REALM LEAGUE_ENC : String) (item : Option String) (limit : Nat)
    (o1 o2 oFetch : CallOutcome) : DealsResponse :=
  let target := pyStrip (pyOrStr item DEFAULT_ITEM)
  if target = "" then { items := [], error := some "missing_item" }
  else handle (deals_body REALM LEAGUE_ENC limit o1 o2 oFetch)

/-- The try-block of `/deals_from_env` (lines 155-162). -/
def deals_from_env_body (REALM LEAGUE_ENC : String) (limit : Nat) (oSearch oFetch : CallOutcome) :
    Except PyError DealsResponse := do
  let search ← poe_search_by_id oSearch
  let resultRaw ← dget search "result" Json.null
  let ids ← sliceIds resultRaw limit
  if ids.isEmpty then
    pure { items := [], note := some "search_ok_but_no_ids" }
  else do
    let mapped ← fetchAndMap REALM LEAGUE_ENC ids oFetch
    let t ← dget search "total" Json.null
    pure { items := mapped.take limit, total := some t }

/-- `GET /deals_from_env` (lines 149-172); `QUERY_ID_ENV` is the env
value fed to the parser. -/
def deals_from_env (QUERY_ID_ENV REALM LEAGUE_ENC : String) (limit : Nat)
    (oSearch oFetch : CallOutcome) : DealsResponse :=
  match parse_trade_url REALM LEAGUE_ENC QUERY_ID_ENV with
  | none => { items := [], error := some "no_query_id_env" }
  | some _ => handle (deals_from_env_body REALM LEAGUE_ENC limit oSearch oFetch)

/-- `f"https://www.pathofexile.com/api/trade2/search/{realm}/{league_enc}/{qid}"`. -/
def searchUrlOf (realm league_enc qid : String) : String :=
  "https://www.pathofexile.com/api/trade2/search/" ++ realm ++ "/" ++ league_enc ++ "/" ++ qid

/-- The try-block of `/deals_by_url` (lines 180-187). -/
def deals_by_url_body (REALM LEAGUE_ENC realm league_enc qid : String) (limit : Nat)
    (oSearch oFetch : CallOutcome) : Except PyError DealsResponse := do
  let surl := searchUrlOf realm league_enc qid
  let search ← poe_search_by_id oSearch
  let resultRaw ← dget search "result" Json.null
  let ids ← sliceIds resultRaw limit
  if ids.isEmpty then do
    let t ← dget search "total" Json.null
    pure { items := [], note := some "search_ok_but_no_ids", search_url := some surl,
           total := some t }
  else do
    let mapped ← fetchAndMap REALM LEAGUE_ENC ids oFetch
    let t ← dget search "total" Json.null
    pure { items := mapped.take limit, search_url := some surl, total := some t }

/-- `GET /deals_by_url` (lines 174-197). -/
def deals_by_url (REALM LEAGUE_ENC : String) (url : String) (limit : Nat)
    (oSearch oFetch : CallOutcome) : DealsResponse :=
  match parse_trade_url REALM LEAGUE_ENC url with
  | none => { items := [], error := some "bad_url" }
  | some (realm, league_enc, qid) =>
    handle (deals_by_url_body REALM LEAGUE_ENC realm league_enc qid limit oSearch oFetch)

/-! ## Parser lemmas -/

/-- Every list is a Boolean prefix of itself followed by anything. -/
theorem isPrefixOf_append_self (l t : List Char) : l.isPrefixOf (l ++ t) = true := by
  induction l with
  | nil => simp [List.isPrefixOf]
  | cons c cs ih => simp [List.isPrefixOf, ih]

theorem takeWhile_all (p : Char → Bool) (l : List Char) (h : ∀ c ∈ l, p c = true) :
    l.takeWhile p = l := by
  induction l with
  | nil => rfl
  | cons c cs ih =>
    rw [List.takeWhile_cons, h c (by simp)]
    simp [ih fun c hc => h c (by simp [hc])]

theorem takeWhile_append_stop (p : Char → Bool) (r : List Char) (x : Char) (rest : List Char)
    (hall : ∀ c ∈ r, p c = true) (hx : p x = false) :
    (r ++ x :: rest).takeWhile p = r := by
  induction r with
  | nil => simp [List.takeWhile_cons, hx]
  | cons a as ih =>
    rw [List.cons_append, List.takeWhile_cons, hall a (by simp)]
    simp [ih fun c hc => hall c (by simp [hc])]

theorem dropWhile_append_stop (p : Char → Bool) (r : List Char) (x : Char) (rest : List Char)
    (hall : ∀ c ∈ r, p c = true) (hx : p x = false) :
    (r ++ x :: rest).dropWhile p = x :: rest := by
  induction r with
  | nil => simp [List.dropWhile_cons, hx]
  | cons a as ih =>
    rw [List.cons_append, List.dropWhile_cons]
    simp only [hall a (by simp), if_pos]
    exact ih fun c hc => hall c (by simp [hc])

/-- The shape of suffixes the regex id capture stops at: end of input or
a `/`, `?` or `#` (query string, fragment, or a further path segment). -/
def goodSuffix : List Char → Bool
  | [] => true
  | c :: _ => c == '/' || c == '?' || c == '#'

/-- The regex matches at a position exactly shaped
`/trade2/search/{realm}/{league}/{qid}` followed by a good suffix, and
captures the three segments. -/
theorem matchHere_exact (r l q suf : List Char)
    (hr0 : r ≠ []) (hr : ∀ c ∈ r, c ≠ '/')
    (hl0 : l ≠ []) (hl : ∀ c ∈ l, c ≠ '/')
    (hq0 : q ≠ []) (hq : ∀ c ∈ q, c ≠ '/' ∧ c ≠ '?' ∧ c ≠ '#')
    (hsuf : goodSuffix suf = true) :
    matchHere (litChars ++ (r ++ ('/' :: (l ++ ('/' :: (q ++ suf)))))) =
      some (String.mk r, String.mk l, String.mk q) := by
  have hrB : ∀ c ∈ r, (c != '/') = true := fun c hc => by
    simpa using hr c hc
  have hlB : ∀ c ∈ l, (c != '/') = true := fun c hc => by
    simpa using hl c hc
  have hqB : ∀ c ∈ q, (c != '/' && c != '?' && c != '#') = true := fun c hc => by
    rcases hq c hc with ⟨h1, h2, h3⟩
    simp [h1, h2, h3]
  have hqtake : (q ++ suf).takeWhile (fun c => c != '/' && c != '?' && c != '#') = q := by
    match suf, hsuf with
    | [], _ => rw [List.append_nil]; exact takeWhile_all _ _ hqB
    | c :: rest, hs =>
      refine takeWhile_append_stop _ _ _ _ hqB ?_
      have : c = '/' ∨ c = '?' ∨ c = '#' := by
        simp only [goodSuffix, Bool.or_eq_true, beq_iff_eq] at hs
        tauto
      rcases this with h | h | h <;> simp [h]
  simp only [matchHere, if_pos (isPrefixOf_append_self litChars _), List.drop_left,
    takeWhile_append_stop _ r '/' _ hrB (by simp),
    dropWhile_append_stop _ r '/' _ hrB (by simp),
    takeWhile_append_stop _ l '/' _ hlB (by simp),
    dropWhile_append_stop _ l '/' _ hlB (by simp), hqtake,
    List.isEmpty_eq_true, hr0, hl0, hq0, ite_false, if_false]

/-- A successful anchored match forces `searchFrom` to succeed there. -/
theorem searchFrom_of_matchHere (t : List Char) (v : String × String × String)
    (h : matchHere t = some v) : searchFrom t = some v := by
  cases t with
  | nil =>
    have h0 : matchHere [] = none := by decide
    rw [h0] at h
    exact Option.noConfusion h
  | cons c rest => rw [searchFrom, h]

/-- If the pattern matches nowhere inside `pre`, scanning `pre ++ t`
reduces to scanning `t`. -/
theorem searchFrom_append_none (pre t : List Char)
    (h : ∀ i < pre.length, matchHere ((pre ++ t).drop i) = none) :
    searchFrom (pre ++ t) = searchFrom t := by
  induction pre with
  | nil => rfl
  | cons c cs ih =>
    have h0 : matchHere (c :: (cs ++ t)) = none := by
      simpa using h 0 (by simp)
    rw [List.cons_append, searchFrom, h0]
    exact ih fun i hi => by simpa using h (i + 1) (by simpa using hi)

/-- A successful anchored match proves the slash constraints of the
capture groups (and the `?`/`#` exclusions for the id). -/
theorem matchHere_shape (t : List Char) (r l q : String)
    (h : matchHere t = some (r, l, q)) :
    (∀ c ∈ r.data, c ≠ '/') ∧ (∀ c ∈ l.data, c ≠ '/') ∧
      (∀ c ∈ q.data, c ≠ '/' ∧ c ≠ '?' ∧ c ≠ '#') := by
  simp only [matchHere] at h
  split at h
  case isFalse => exact Option.noConfusion h
  split at h
  · exact Option.noConfusion h
  · split at h
    case h_2 => exact Option.noConfusion h
    split at h
    · exact Option.noConfusion h
    · split at h
      case h_2 => exact Option.noConfusion h
      split at h
      · exact Option.noConfusion h
      · rw [Option.some_inj] at h
        injection h with h1 h23
        injection h23 with h2 h3
        subst h1
        subst h2
        subst h3
        refine ⟨?_, ?_, ?_⟩
        · intro c hc
          have := List.mem_takeWhile_imp hc
          simpa using this
        · intro c hc
          have := List.mem_takeWhile_imp hc
          simpa using this
        · intro c hc
          have := List.mem_takeWhile_imp hc
          simp only [Bool.and_eq_true, bne_iff_ne, ne_eq] at this
          tauto

/-- An anchored match needs the literal, hence a slash. -/
theorem matchHere_has_slash (t : List Char) (v : String × String × String)
    (h : matchHere t = some v) : '/' ∈ t := by
  rw [matchHere] at h
  split at h
  case isFalse => exact Option.noConfusion h
  case isTrue hp =>
    have hpre : litChars <+: t := List.isPrefixOf_iff_prefix.mp hp
    exact hpre.subset (by decide)

/-- A slash-free string never matches the URL pattern. -/
theorem searchFrom_eq_none_of_no_slash (t : List Char) (h : '/' ∉ t) :
    searchFrom t = none := by
  induction t with
  | nil => rfl
  | cons c cs ih =>
    rw [searchFrom]
    cases hm : matchHere (c :: cs) with
    | some v => exact absurd (matchHere_has_slash _ _ hm) h
    | none => exact ih fun hc => h (by simp [hc])

/-- Claim C1 (amended): the pattern the parser recognizes is
`/trade2/search/{realm}/{league}/{queryId}` (not `/search/...`); whenever
the input decomposes as a prefix, that pattern with non-empty slash-free
realm and league segments and a non-empty `/?#`-free id segment, a good
suffix (empty, or starting the query string, a fragment or another path
segment), and the pattern matches nowhere strictly inside the prefix,
`parse_trade_url` returns exactly the captured triple, with the trailing
query string or fragment stripped from the id. -/
theorem claim_C1_amended (dr dl : String) (pre r l q suf : List Char)
    (hr0 : r ≠ []) (hr : ∀ c ∈ r, c ≠ '/')
    (hl0 : l ≠ []) (hl : ∀ c ∈ l, c ≠ '/')
    (hq0 : q ≠ []) (hq : ∀ c ∈ q, c ≠ '/' ∧ c ≠ '?' ∧ c ≠ '#')
    (hsuf : goodSuffix suf = true)
    (hfirst : ∀ i < pre.length,
      matchHere ((pre ++ (litChars ++ (r ++ ('/' :: (l ++ ('/' :: (q ++ suf))))))).drop i)
        = none) :
    parse_trade_url dr dl
        (String.mk (pre ++ (litChars ++ (r ++ ('/' :: (l ++ ('/' :: (q ++ suf))))))))
      = some (String.mk r, String.mk l, String.mk q) := by
  have hmatch := matchHere_exact r l q suf hr0 hr hl0 hl hq0 hq hsuf
  have hsearch :
      searchFrom (pre ++ (litChars ++ (r ++ ('/' :: (l ++ ('/' :: (q ++ suf))))))) =
        some (String.mk r, String.mk l, String.mk q) := by
    rw [searchFrom_append_none _ _ hfirst]
    exact searchFrom_of_matchHere _ _ hmatch
  have hdata :
      (String.mk (pre ++ (litChars ++ (r ++ ('/' :: (l ++ ('/' :: (q ++ suf)))))))).data =
        pre ++ (litChars ++ (r ++ ('/' :: (l ++ ('/' :: (q ++ suf)))))) := rfl
  have hne : String.mk (pre ++ (litChars ++ (r ++ ('/' :: (l ++ ('/' :: (q ++ suf))))))) ≠ "" := by
    intro hcontra
    have : pre ++ (litChars ++ (r ++ ('/' :: (l ++ ('/' :: (q ++ suf)))))) = [] := by
      have := congrArg String.data hcontra
      simpa using this
    simp [List.append_eq_nil, litChars] at this
  rw [parse_trade_url, if_neg hne, hdata, hsearch]

/-- Witness for C1: the default-config parse of
`/trade2/search/poe2/Standard/abc123?x=1` (empty prefix) yields the triple
with the query string stripped. -/
theorem claim_C1_witness :
    parse_trade_url "poe2" "Dawn%20of%20the%20Hunt"
        (String.mk ([] ++ (litChars ++ ("poe2".data ++
          ('/' :: ("Standard".data ++ ('/' :: ("abc123".data ++ "?x=1".data))))))))
      = some (String.mk "poe2".data, String.mk "Standard".data, String.mk "abc123".data) :=
  claim_C1_amended "poe2" "Dawn%20of%20the%20Hunt" [] "poe2".data "Standard".data
    "abc123".data "?x=1".data
    (by decide) (by decide)
    (by decide) (by decide)
    (by decide) (by decide)
    (by decide)
    (fun i hi => absurd hi (by simp))

/-- Counterexample for C1 as stated: the input
`/search/poe2/Standard/abc123` contains a segment of the claimed shape
`/search/{realm}/{league}/{queryId}`, yet the parser returns `none`
(the regex requires `/trade2/search/...`, and the bare-id fallback
rejects the input because it contains slashes). -/
theorem claim_C1_cex :
    parse_trade_url "poe2" "Dawn%20of%20the%20Hunt" "/search/poe2/Standard/abc123" = none := by
  decide

/-- `"/" not in s` as the parser tests it, phrased through `contains`. -/
theorem contains_slash_false_iff (t : List Char) :
    t.contains '/' = false ↔ '/' ∉ t := by
  constructor
  · intro h hmem
    have : t.contains '/' = true := by simpa using hmem
    rw [h] at this
    exact Bool.noConfusion this
  · intro h
    by_contra hne
    have : t.contains '/' = true := by
      cases hb : t.contains '/' with
      | true => rfl
      | false => exact absurd hb hne
    exact h (by simpa using this)

/-- Claim C5 (confirmed): `parse_trade_url` returns `none` exactly when
the input is empty, or matches neither the URL pattern nor the bare-id
shape (a slash present, or length under 6); and a non-empty slash-free
input of length at least 6 resolves to the configured default realm and
league with the input itself as the query id. -/
theorem claim_C5 (dr dl s : String) :
    (parse_trade_url dr dl s = none ↔
      (s = "" ∨ (searchFrom s.data = none ∧
        (s.data.contains '/' = true ∨ s.length < 6)))) ∧
    (s ≠ "" → s.data.contains '/' = false → 6 ≤ s.length →
      parse_trade_url dr dl s = some (dr, dl, s)) := by
  constructor
  · by_cases he : s = ""
    · simp [parse_trade_url, he]
    · rw [parse_trade_url, if_neg he]
      cases hsf : searchFrom s.data with
      | some t => simp [he, hsf]
      | none =>
        by_cases hc : s.data.contains '/' = false ∧ 6 ≤ s.length
        · rw [if_pos hc]
          simp only [he, false_or]
          constructor
          · intro habs
            exact Option.noConfusion habs
          · rintro ⟨-, h | h⟩
            · rw [hc.1] at h
              exact Bool.noConfusion h
            · omega
        · rw [if_neg hc]
          simp only [he, false_or, true_iff]
          refine ⟨by trivial, ?_⟩
          by_cases h1 : s.data.contains '/' = true
          · exact Or.inl h1
          · right
            have h1f : s.data.contains '/' = false := by
              cases hb : s.data.contains '/' with
              | true => exact absurd hb h1
              | false => rfl
            by_contra h2
            exact hc ⟨h1f, by omega⟩
  · intro hne hnc hlen
    have h0 : searchFrom s.data = none :=
      searchFrom_eq_none_of_no_slash s.data ((contains_slash_false_iff s.data).mp hnc)
    rw [parse_trade_url, if_neg hne, h0, if_pos ⟨hnc, hlen⟩]

/-- Witness for C5: the bare id `abc123` resolves with the configured
defaults, via the second conjunct of `claim_C5`. -/
theorem claim_C5_witness :
    parse_trade_url "poe2" "Dawn%20of%20the%20Hunt" "abc123" =
      some ("poe2", "Dawn%20of%20the%20Hunt", "abc123") :=
  (claim_C5 "poe2" "Dawn%20of%20the%20Hunt" "abc123").2
    (by decide) (by decide) (by decide)

/-- A successful scan yields capture groups free of slashes. -/
theorem searchFrom_shape (t : List Char) (r l q : String)
    (h : searchFrom t = some (r, l, q)) :
    (∀ c ∈ r.data, c ≠ '/') ∧ (∀ c ∈ l.data, c ≠ '/') ∧ (∀ c ∈ q.data, c ≠ '/') := by
  induction t with
  | nil => exact Option.noConfusion h
  | cons c cs ih =>
    rw [searchFrom] at h
    cases hm : matchHere (c :: cs) with
    | some v =>
      rw [hm] at h
      rw [Option.some_inj] at h
      subst h
      obtain ⟨h1, h2, h3⟩ := matchHere_shape _ _ _ _ hm
      exact ⟨h1, h2, fun c hc => (h3 c hc).1⟩
    | none =>
      rw [hm] at h
      exact ih h

/-- Claim C10 (confirmed): whenever the configured realm and encoded
league are slash-free (as the defaults are), every triple returned by
`parse_trade_url` has slash-free components: the URL branch captures
`[^/]`-constrained segments, and the bare-id branch returns the
slash-free input with the configured pair. -/
theorem claim_C10 (dr dl s r l q : String)
    (hdr : dr.data.contains '/' = false) (hdl : dl.data.contains '/' = false)
    (h : parse_trade_url dr dl s = some (r, l, q)) :
    r.data.contains '/' = false ∧ l.data.contains '/' = false ∧
      q.data.contains '/' = false := by
  rw [parse_trade_url] at h
  split at h
  · exact Option.noConfusion h
  · split at h
    · rename_i t heq
      rw [Option.some_inj] at h
      subst h
      obtain ⟨h1, h2, h3⟩ := searchFrom_shape _ _ _ _ heq
      exact ⟨(contains_slash_false_iff _).mpr fun hm => h1 '/' hm rfl,
        (contains_slash_false_iff _).mpr fun hm => h2 '/' hm rfl,
        (contains_slash_false_iff _).mpr fun hm => h3 '/' hm rfl⟩
    · split at h
      · rename_i hcond
        rw [Option.some_inj] at h
        injection h with ha hbc
        injection hbc with hb hc2
        subst ha
        subst hb
        subst hc2
        exact ⟨hdr, hdl, hcond.1⟩
      · exact Option.noConfusion h

/-- Witness for C10: the default configuration is slash-free, and the
triple parsed from a full URL with it has slash-free components. -/
theorem claim_C10_witness :
    ("poe2" : String).data.contains '/' = false ∧
    LEAGUE_ENC_default.data.contains '/' = false ∧
    (("Standard" : String).data.contains '/' = false ∧
      ("LeagueX" : String).data.contains '/' = false ∧
      ("abc123" : String).data.contains '/' = false) :=
  ⟨by decide, by decide,
    claim_C10 "poe2" LEAGUE_ENC_default
      "https://www.pathofexile.com/trade2/search/Standard/LeagueX/abc123?x=1"
      "Standard" "LeagueX" "abc123" (by decide) (by decide) (by decide)⟩

/-! ## Mapper lemmas -/

/-- `x.get(k) or {}` and `x.get(k, {}) or {}` resolve identically. -/
theorem jor_getD_null_eq_pyDictD (o : Option Json) :
    jor (o.getD Json.null) (Json.obj []) = pyDictD o := by
  cases o with
  | none => rfl
  | some v => rfl

/-- Under the assumption that the four nested accesses resolve to dicts,
`map_listing` computes to the explicit output dict. -/
theorem map_listing_eval (dr dl : String) (fields Lfs Ifs Pfs Afs : List (String × Json))
    (hL : pyDictD (jlook fields "listing") = Json.obj Lfs)
    (hI : pyDictD (jlook fields "item") = Json.obj Ifs)
    (hP : pyDictD (jlook Lfs "price") = Json.obj Pfs)
    (hA : pyDictD (jlook Lfs "account") = Json.obj Afs) :
    map_listing dr dl (Json.obj fields) = Except.ok (Json.obj [
      ("id", (jlook fields "id").getD Json.null),
      ("name", jor ((jlook Ifs "name").getD Json.null) (Json.str "")),
      ("baseType", jor ((jlook Ifs "typeLine").getD Json.null) (Json.str "")),
      ("price", (jlook Pfs "amount").getD Json.null),
      ("currency", (jlook Pfs "currency").getD Json.null),
      ("priceStr", Json.str (priceStrOf ((jlook Pfs "amount").getD Json.null)
        ((jlook Pfs "currency").getD Json.null))),
      ("seller", (jlook Afs "name").getD (Json.str "")),
      ("listedAt", (jlook Lfs "indexed").getD Json.null),
      ("tradeUrl", Json.str (tradeUrlPrefix dr dl ++
        pyStr ((jlook fields "id").getD (Json.str ""))))]) := by
  have hL2 : jor ((jlook fields "listing").getD (Json.obj [])) (Json.obj []) = Json.obj Lfs := hL
  have hI2 : jor ((jlook fields "item").getD (Json.obj [])) (Json.obj []) = Json.obj Ifs := hI
  have hP2 : jor ((jlook Lfs "price").getD (Json.obj [])) (Json.obj []) = Json.obj Pfs := hP
  have hA2 : jor ((jlook Lfs "account").getD Json.null) (Json.obj []) = Json.obj Afs :=
    (jor_getD_null_eq_pyDictD _).trans hA
  simp only [map_listing, dget, bind, Except.bind, hL2, hI2, hP2, hA2, pure, Except.pure]

/-- The claim's hypothesis on a nested field: absent, or `null`. -/
def missingOrNull (o : Option Json) : Prop := o = none ∨ o = some Json.null

/-- A missing-or-null field resolves to the empty dict. -/
theorem missingOrNull_pyDictD (o : Option Json) (h : missingOrNull o) :
    pyDictD o = Json.obj [] := by
  rcases h with h | h <;> subst h <;> rfl

/-- Project one field of a JSON object. -/
def jfield (j : Json) (key : String) : Option Json :=
  match j with
  | .obj fs => jlook fs key
  | _ => none

/-- Claim C4 (amended): provided the listing node is a JSON object and
each of its `listing`, `item`, `listing.price` and `listing.account`
accesses resolves to a dict (which holds in particular whenever those
fields are missing, `null` or otherwise falsy), `map_listing` raises no
exception, and each field among item, listing, price, account that is
missing or `null` makes the corresponding output fields default to the
empty string or `null`. -/
theorem claim_C4_amended (dr dl : String) (fields Lfs Ifs Pfs Afs : List (String × Json))
    (hL : pyDictD (jlook fields "listing") = Json.obj Lfs)
    (hI : pyDictD (jlook fields "item") = Json.obj Ifs)
    (hP : pyDictD (jlook Lfs "price") = Json.obj Pfs)
    (hA : pyDictD (jlook Lfs "account") = Json.obj Afs) :
    (∃ out, map_listing dr dl (Json.obj fields) = Except.ok out) ∧
    (missingOrNull (jlook fields "item") →
      mlField dr dl (Json.obj fields) "name" = some (Json.str "") ∧
      mlField dr dl (Json.obj fields) "baseType" = some (Json.str "")) ∧
    (missingOrNull (jlook fields "listing") →
      mlField dr dl (Json.obj fields) "price" = some Json.null ∧
      mlField dr dl (Json.obj fields) "currency" = some Json.null ∧
      mlField dr dl (Json.obj fields) "priceStr" = some (Json.str "") ∧
      mlField dr dl (Json.obj fields) "seller" = some (Json.str "") ∧
      mlField dr dl (Json.obj fields) "listedAt" = some Json.null) ∧
    (missingOrNull (jlook Lfs "price") →
      mlField dr dl (Json.obj fields) "price" = some Json.null ∧
      mlField dr dl (Json.obj fields) "currency" = some Json.null ∧
      mlField dr dl (Json.obj fields) "priceStr" = some (Json.str "")) ∧
    (missingOrNull (jlook Lfs "account") →
      mlField dr dl (Json.obj fields) "seller" = some (Json.str "")) := by
  have heval := map_listing_eval dr dl fields Lfs Ifs Pfs Afs hL hI hP hA
  refine ⟨⟨_, heval⟩, ?_, ?_, ?_, ?_⟩
  · intro hmiss
    have hIfs : Ifs = [] := by
      have := (missingOrNull_pyDictD _ hmiss).symm.trans hI
      exact (Json.obj.injEq .. ▸ this).symm
    subst hIfs
    constructor <;> simp [mlField, heval, jlook, jor, jtruthy]
  · intro hmiss
    have hLfs : Lfs = [] := by
      have := (missingOrNull_pyDictD _ hmiss).symm.trans hL
      exact (Json.obj.injEq .. ▸ this).symm
    subst hLfs
    have hPfs : Pfs = [] := by
      have := hP.symm.trans (by rfl : pyDictD (jlook ([] : List (String × Json)) "price") =
        Json.obj [])
      exact Json.obj.injEq .. ▸ this
    have hAfs : Afs = [] := by
      have := hA.symm.trans (by rfl : pyDictD (jlook ([] : List (String × Json)) "account") =
        Json.obj [])
      exact Json.obj.injEq .. ▸ this
    subst hPfs
    subst hAfs
    refine ⟨?_, ?_, ?_, ?_, ?_⟩ <;>
      simp [mlField, heval, jlook, jor, jtruthy, priceStrOf, isNull]
  · intro hmiss
    have hPfs : Pfs = [] := by
      have := (missingOrNull_pyDictD _ hmiss).symm.trans hP
      exact (Json.obj.injEq .. ▸ this).symm
    subst hPfs
    refine ⟨?_, ?_, ?_⟩ <;>
      simp [mlField, heval, jlook, jor, jtruthy, priceStrOf, isNull]
  · intro hmiss
    have hAfs : Afs = [] := by
      have := (missingOrNull_pyDictD _ hmiss).symm.trans hA
      exact (Json.obj.injEq .. ▸ this).symm
    subst hAfs
    simp [mlField, heval, jlook, jor, jtruthy]

/-- Witness for C4: the empty node maps successfully with all-default
fields. -/
theorem claim_C4_witness :
    (∃ out, map_listing "poe2" "Dawn%20of%20the%20Hunt" (Json.obj []) = Except.ok out) ∧
    mlField "poe2" "Dawn%20of%20the%20Hunt" (Json.obj []) "name" = some (Json.str "") ∧
    mlField "poe2" "Dawn%20of%20the%20Hunt" (Json.obj []) "priceStr" = some (Json.str "") ∧
    mlField "poe2" "Dawn%20of%20the%20Hunt" (Json.obj []) "seller" = some (Json.str "") := by
  have h := claim_C4_amended "poe2" "Dawn%20of%20the%20Hunt" [] [] [] [] []
    (by rfl) (by rfl) (by rfl) (by rfl)
  refine ⟨h.1, (h.2.1 (Or.inl rfl)).1, (h.2.2.1 (Or.inl rfl)).2.2.1, h.2.2.2.2 (Or.inl rfl)⟩

/-- Counterexample for C4 as stated: the node `{"item": "x"}` has its
`listing`, `price` and `account` fields missing, yet `map_listing`
raises `AttributeError` when it evaluates `item.get("name")` on the
truthy non-dict `"x"`. -/
theorem claim_C4_cex :
    map_listing "poe2" "Dawn%20of%20the%20Hunt"
      (Json.obj [("item", Json.str "x")]) = Except.error (PyError.exc "AttributeError") := by
  rfl

/-- Claim C7 (amended): the mapped `priceStr` is the concatenation of the
rendered amount and currency exactly when the amount is non-null and the
currency is truthy (present, non-null and non-empty); in every other
case, including a present-but-empty currency string, it is the empty
string. -/
theorem claim_C7_amended (dr dl : String) (fields Lfs Ifs Pfs Afs : List (String × Json))
    (hL : pyDictD (jlook fields "listing") = Json.obj Lfs)
    (hI : pyDictD (jlook fields "item") = Json.obj Ifs)
    (hP : pyDictD (jlook Lfs "price") = Json.obj Pfs)
    (hA : pyDictD (jlook Lfs "account") = Json.obj Afs) :
    mlField dr dl (Json.obj fields) "priceStr" =
      some (Json.str (priceStrOf ((jlook Pfs "amount").getD Json.null)
        ((jlook Pfs "currency").getD Json.null))) ∧
    (∀ a c : Json, isNull a = false → jtruthy c = true →
      priceStrOf a c = pyStr a ++ pyStr c) ∧
    (∀ a c : Json, isNull a = true ∨ jtruthy c = false → priceStrOf a c = "") := by
  have heval := map_listing_eval dr dl fields Lfs Ifs Pfs Afs hL hI hP hA
  refine ⟨by simp [mlField, heval, jlook], ?_, ?_⟩
  · intro a c ha hc
    simp [priceStrOf, ha, hc]
  · intro a c h
    rcases h with h | h <;> simp [priceStrOf, h]

/-- Witness for C7: a node priced `5 chaos` maps to `priceStr = "5chaos"`. -/
theorem claim_C7_witness :
    mlField "poe2" "Dawn%20of%20the%20Hunt"
      (Json.obj [("listing", Json.obj [("price",
        Json.obj [("amount", Json.num 5), ("currency", Json.str "chaos")])])]) "priceStr" =
      some (Json.str "5chaos") := by
  have h := claim_C7_amended "poe2" "Dawn%20of%20the%20Hunt"
    [("listing", Json.obj [("price",
      Json.obj [("amount", Json.num 5), ("currency", Json.str "chaos")])])]
    [("price", Json.obj [("amount", Json.num 5), ("currency", Json.str "chaos")])]
    [] [("amount", Json.num 5), ("currency", Json.str "chaos")] []
    (by rfl) (by rfl) (by rfl) (by rfl)
  rw [h.1]
  rfl

/-- Counterexample for C7 as stated: with `amount = 5` and
`currency = ""` both fields are present and non-null, yet `priceStr` is
`""` rather than the concatenation `"5"`, because the code tests the
currency for truthiness, not for nullness. -/
theorem claim_C7_cex :
    mlField "poe2" "Dawn%20of%20the%20Hunt"
      (Json.obj [("listing", Json.obj [("price",
        Json.obj [("amount", Json.num 5), ("currency", Json.str "")])])]) "priceStr" =
      some (Json.str "") ∧
    some (Json.str "") ≠
      some (Json.str (pyStr (Json.num 5) ++ pyStr (Json.str ""))) := by
  constructor
  · rfl
  · intro h
    rw [Option.some_inj] at h
    injection h with h2
    exact absurd h2 (by decide)

/-- Claim C2 (amended): the mapped `tradeUrl` is always reconstructed
from the configured realm and encoded league and the node's own `id`
field, regardless of which search mode produced the batch; in
particular, for `/deals_by_url` with query id `abc123` the returned
items' `tradeUrl` embeds each node id and need not contain `abc123`. -/
theorem claim_C2_amended (dr dl : String) (fields Lfs Ifs Pfs Afs : List (String × Json))
    (hL : pyDictD (jlook fields "listing") = Json.obj Lfs)
    (hI : pyDictD (jlook fields "item") = Json.obj Ifs)
    (hP : pyDictD (jlook Lfs "price") = Json.obj Pfs)
    (hA : pyDictD (jlook Lfs "account") = Json.obj Afs) :
    mlField dr dl (Json.obj fields) "tradeUrl" =
      some (Json.str (tradeUrlPrefix dr dl ++
        pyStr ((jlook fields "id").getD (Json.str "")))) := by
  have heval := map_listing_eval dr dl fields Lfs Ifs Pfs Afs hL hI hP hA
  simp [mlField, heval, jlook]

/-- Witness for C2 (amended): a node with id `node1` maps to a trade URL
ending in `node1` under the default configuration. -/
theorem claim_C2_witness :
    mlField "poe2" "Dawn%20of%20the%20Hunt"
      (Json.obj [("id", Json.str "node1")]) "tradeUrl" =
      some (Json.str
        "https://www.pathofexile.com/trade2/search/poe2/Dawn%20of%20the%20Hunt/node1") := by
  have h := claim_C2_amended "poe2" "Dawn%20of%20the%20Hunt"
    [("id", Json.str "node1")] [] [] [] []
    (by rfl) (by rfl) (by rfl) (by rfl)
  rw [h]
  rfl

/-- Counterexample for C2 as stated: `/deals_by_url` with the query id
`abc123`, an upstream search returning one result id and a fetch
returning one node with id `node1`, produces one item whose `tradeUrl`
embeds `node1` — and does not contain `abc123`. -/
theorem claim_C2_cex :
    ((deals_by_url "poe2" "Dawn%20of%20the%20Hunt"
        "https://www.pathofexile.com/trade2/search/poe2/LeagueX/abc123" 10
        (CallOutcome.resp ⟨200, "", Json.obj [("id", Json.str "abc123"),
          ("result", Json.arr [Json.str "i1"]), ("total", Json.num 1)]⟩)
        (CallOutcome.resp ⟨200, "", Json.obj [("result",
          Json.arr [Json.obj [("id", Json.str "node1")]])]⟩)).items.map
        (fun j => jfield j "tradeUrl")) =
      [some (Json.str
        "https://www.pathofexile.com/trade2/search/poe2/Dawn%20of%20the%20Hunt/node1")] ∧
    strContains
      "https://www.pathofexile.com/trade2/search/poe2/Dawn%20of%20the%20Hunt/node1"
      "abc123" = false := by
  constructor
  · rfl
  · rfl

/-! ## Route lemmas -/

/-- A 4xx/5xx search-by-id call raises `HTTPError`. -/
theorem poe_search_by_id_fail (st : Nat) (text : String) (body : Json)
    (h4 : 400 ≤ st) (h5 : st < 600) :
    poe_search_by_id (CallOutcome.resp ⟨st, text, body⟩) =
      Except.error (PyError.httpError st text) := by
  simp [poe_search_by_id, raise_for_status, h4, h5, bind, Except.bind]

/-- A non-error-status search-by-id call returns the parsed body. -/
theorem poe_search_by_id_ok (r : HttpResponse) (h : ¬(400 ≤ r.status ∧ r.status < 600)) :
    poe_search_by_id (CallOutcome.resp r) = Except.ok r.body := by
  simp [poe_search_by_id, raise_for_status, h, bind, Except.bind, pure, Except.pure]

/-- A 4xx/5xx fetch call over a non-empty, joinable id list raises
`HTTPError`. -/
theorem poe_fetch_fail (ids : List Json) (ss : List String) (st : Nat) (text : String)
    (body : Json) (hne : ids ≠ []) (hj : joinIds ids = Except.ok ss)
    (h4 : 400 ≤ st) (h5 : st < 600) :
    poe_fetch ids (CallOutcome.resp ⟨st, text, body⟩) =
      Except.error (PyError.httpError st text) := by
  have hempty : ids.isEmpty = false := by
    cases ids with
    | nil => exact absurd rfl hne
    | cons a as => rfl
  simp [poe_fetch, hempty, hj, raise_for_status, h4, h5, bind, Except.bind]

/-- The fetch-and-map pipeline propagates the fetch `HTTPError`. -/
theorem fetchAndMap_fail (REALM LEAGUE_ENC : String) (ids : List Json) (ss : List String)
    (st : Nat) (text : String) (body : Json) (hne : ids ≠ [])
    (hj : joinIds ids = Except.ok ss) (h4 : 400 ≤ st) (h5 : st < 600) :
    fetchAndMap REALM LEAGUE_ENC ids (CallOutcome.resp ⟨st, text, body⟩) =
      Except.error (PyError.httpError st text) := by
  simp [fetchAndMap, poe_fetch_fail ids ss st text body hne hj h4 h5, bind, Except.bind]

/-- `/deals_by_url` body: search failure yields the `HTTPError`. -/
theorem deals_by_url_body_search_fail (REALM LEAGUE_ENC realm league_enc qid : String)
    (limit : Nat) (oF : CallOutcome) (st : Nat) (text : String) (body : Json)
    (h4 : 400 ≤ st) (h5 : st < 600) :
    deals_by_url_body REALM LEAGUE_ENC realm league_enc qid limit
      (CallOutcome.resp ⟨st, text, body⟩) oF = Except.error (PyError.httpError st text) := by
  simp [deals_by_url_body, poe_search_by_id_fail st text body h4 h5, bind, Except.bind]

/-- `/deals_by_url` body: fetch failure after a successful search yields
the `HTTPError`. -/
theorem deals_by_url_body_fetch_fail (REALM LEAGUE_ENC realm league_enc qid : String)
    (limit : Nat) (rS : HttpResponse) (resJ : Json) (ids : List Json) (ss : List String)
    (st : Nat) (text : String) (body : Json)
    (hok : ¬(400 ≤ rS.status ∧ rS.status < 600))
    (hres : dget rS.body "result" Json.null = Except.ok resJ)
    (hslice : sliceIds resJ limit = Except.ok ids)
    (hne : ids ≠ []) (hj : joinIds ids = Except.ok ss)
    (h4 : 400 ≤ st) (h5 : st < 600) :
    deals_by_url_body REALM LEAGUE_ENC realm league_enc qid limit
      (CallOutcome.resp rS) (CallOutcome.resp ⟨st, text, body⟩) =
      Except.error (PyError.httpError st text) := by
  have hempty : ids.isEmpty = false := by
    cases ids with
    | nil => exact absurd rfl hne
    | cons a as => rfl
  simp [deals_by_url_body, poe_search_by_id_ok rS hok, hres, hslice, hempty,
    fetchAndMap_fail REALM LEAGUE_ENC ids ss st text body hne hj h4 h5, bind, Except.bind]

/-- `/deals_from_env` body: search failure yields the `HTTPError`. -/
theorem deals_from_env_body_search_fail (REALM LEAGUE_ENC : String) (limit : Nat)
    (oF : CallOutcome) (st : Nat) (text : String) (body : Json)
    (h4 : 400 ≤ st) (h5 : st < 600) :
    deals_from_env_body REALM LEAGUE_ENC limit (CallOutcome.resp ⟨st, text, body⟩) oF =
      Except.error (PyError.httpError st text) := by
  simp [deals_from_env_body, poe_search_by_id_fail st text body h4 h5, bind, Except.bind]

/-- `/deals_from_env` body: fetch failure after a successful search
yields the `HTTPError`. -/
theorem deals_from_env_body_fetch_fail (REALM LEAGUE_ENC : String) (limit : Nat)
    (rS : HttpResponse) (resJ : Json) (ids : List Json) (ss : List String)
    (st : Nat) (text : String) (body : Json)
    (hok : ¬(400 ≤ rS.status ∧ rS.status < 600))
    (hres : dget rS.body "result" Json.null = Except.ok resJ)
    (hslice : sliceIds resJ limit = Except.ok ids)
    (hne : ids ≠ []) (hj : joinIds ids = Except.ok ss)
    (h4 : 400 ≤ st) (h5 : st < 600) :
    deals_from_env_body REALM LEAGUE_ENC limit (CallOutcome.resp rS)
      (CallOutcome.resp ⟨st, text, body⟩) = Except.error (PyError.httpError st text) := by
  have hempty : ids.isEmpty = false := by
    cases ids with
    | nil => exact absurd rfl hne
    | cons a as => rfl
  simp [deals_from_env_body, poe_search_by_id_ok rS hok, hres, hslice, hempty,
    fetchAndMap_fail REALM LEAGUE_ENC ids ss st text body hne hj h4 h5, bind, Except.bind]

/-- `/deals` body: when the by-type attempt is not 200 and the by-name
attempt has an error status, the `HTTPError` of the second attempt
escapes. -/
theorem deals_body_name_fail (REALM LEAGUE_ENC : String) (limit : Nat) (r1 : HttpResponse)
    (oF : CallOutcome) (st : Nat) (text : String) (body : Json)
    (hnot200 : r1.status ≠ 200) (h4 : 400 ≤ st) (h5 : st < 600) :
    deals_body REALM LEAGUE_ENC limit (CallOutcome.resp r1)
      (CallOutcome.resp ⟨st, text, body⟩) oF = Except.error (PyError.httpError st text) := by
  simp [deals_body, poe_search_by_name_or_type, hnot200, raise_for_status, h4, h5,
    bind, Except.bind]

/-- `/deals` body: when the by-type attempt succeeds with 200, a truthy
query id and non-empty ids, a fetch failure escapes as `HTTPError`. -/
theorem deals_body_fetch_fail (REALM LEAGUE_ENC : String) (limit : Nat) (r1 : HttpResponse)
    (o2 : CallOutcome) (qid resJ : Json) (ids : List Json) (ss : List String)
    (st : Nat) (text : String) (body : Json)
    (h200 : r1.status = 200)
    (hqid : dget r1.body "id" Json.null = Except.ok qid) (htr : jtruthy qid = true)
    (hres : dget r1.body "result" Json.null = Except.ok resJ)
    (hslice : sliceIds resJ limit = Except.ok ids)
    (hne : ids ≠ []) (hj : joinIds ids = Except.ok ss)
    (h4 : 400 ≤ st) (h5 : st < 600) :
    deals_body REALM LEAGUE_ENC limit (CallOutcome.resp r1) o2
      (CallOutcome.resp ⟨st, text, body⟩) = Except.error (PyError.httpError st text) := by
  have hempty : ids.isEmpty = false := by
    cases ids with
    | nil => exact absurd rfl hne
    | cons a as => rfl
  simp [deals_body, poe_search_by_name_or_type, h200, hqid, htr, hres, hslice, hempty,
    fetchAndMap_fail REALM LEAGUE_ENC ids ss st text body hne hj h4 h5, bind, Except.bind]

/-- Every successful `/deals` body carries no `error` key and at most
`limit` items. -/
theorem deals_body_ok_shape (REALM LEAGUE_ENC : String) (limit : Nat)
    (o1 o2 oF : CallOutcome) (r : DealsResponse)
    (h : deals_body REALM LEAGUE_ENC limit o1 o2 oF = Except.ok r) :
    r.error = none ∧ r.items.length ≤ limit := by
  simp only [deals_body, bind, Except.bind, pure, Except.pure] at h
  repeat' split at h
  any_goals exact Except.noConfusion h
  all_goals injection h with h2
  all_goals subst h2
  · exact ⟨rfl, by simp⟩
  · exact ⟨rfl, by simpa using List.length_take_le _ _⟩

/-- Every successful `/deals_from_env` body carries no `error` key and at
most `limit` items. -/
theorem deals_from_env_body_ok_shape (REALM LEAGUE_ENC : String) (limit : Nat)
    (oS oF : CallOutcome) (r : DealsResponse)
    (h : deals_from_env_body REALM LEAGUE_ENC limit oS oF = Except.ok r) :
    r.error = none ∧ r.items.length ≤ limit := by
  simp only [deals_from_env_body, bind, Except.bind, pure, Except.pure] at h
  repeat' split at h
  any_goals exact Except.noConfusion h
  all_goals injection h with h2
  all_goals subst h2
  · exact ⟨rfl, by simp⟩
  · exact ⟨rfl, by simpa using List.length_take_le _ _⟩

/-- Every successful `/deals_by_url` body carries no `error` key and at
most `limit` items. -/
theorem deals_by_url_body_ok_shape (REALM LEAGUE_ENC realm league_enc qid : String)
    (limit : Nat) (oS oF : CallOutcome) (r : DealsResponse)
    (h : deals_by_url_body REALM LEAGUE_ENC realm league_enc qid limit oS oF =
      Except.ok r) :
    r.error = none ∧ r.items.length ≤ limit := by
  simp only [deals_by_url_body, bind, Except.bind, pure, Except.pure] at h
  repeat' split at h
  any_goals exact Except.noConfusion h
  all_goals injection h with h2
  all_goals subst h2
  · exact ⟨rfl, by simp⟩
  · exact ⟨rfl, by simpa using List.length_take_le _ _⟩

/-- The error handler always clears the item list. -/
theorem errResponse_items (e : PyError) : (errResponse e).items = [] := by
  cases e <;> rfl

/-- Claim C8 (confirmed): whenever a deals response carries an `error`
field, its `items` list is empty — no response mixes an error with a
non-empty item list. -/
theorem claim_C8 (DEFAULT_ITEM REALM LEAGUE_ENC QUERY_ID_ENV url : String)
    (item : Option String) (limit : Nat) (o1 o2 oS oF : CallOutcome) :
    ((deals DEFAULT_ITEM REALM LEAGUE_ENC item limit o1 o2 oF).error.isSome →
      (deals DEFAULT_ITEM REALM LEAGUE_ENC item limit o1 o2 oF).items = []) ∧
    ((deals_from_env QUERY_ID_ENV REALM LEAGUE_ENC limit oS oF).error.isSome →
      (deals_from_env QUERY_ID_ENV REALM LEAGUE_ENC limit oS oF).items = []) ∧
    ((deals_by_url REALM LEAGUE_ENC url limit oS oF).error.isSome →
      (deals_by_url REALM LEAGUE_ENC url limit oS oF).items = []) := by
  refine ⟨?_, ?_, ?_⟩
  · simp only [deals]
    split
    · intro _
      rfl
    · cases hb : deals_body REALM LEAGUE_ENC limit o1 o2 oF with
      | error e =>
        intro _
        exact errResponse_items e
      | ok r =>
        intro hs
        have herr := (deals_body_ok_shape _ _ _ _ _ _ _ hb).1
        simp [handle, herr] at hs
  · simp only [deals_from_env]
    split
    · intro _
      rfl
    · cases hb : deals_from_env_body REALM LEAGUE_ENC limit oS oF with
      | error e =>
        intro _
        exact errResponse_items e
      | ok r =>
        intro hs
        have herr := (deals_from_env_body_ok_shape _ _ _ _ _ _ hb).1
        simp [handle, herr] at hs
  · simp only [deals_by_url]
    split
    · intro _
      rfl
    · cases hb : deals_by_url_body REALM LEAGUE_ENC _ _ _ limit oS oF with
      | error e =>
        intro _
        exact errResponse_items e
      | ok r =>
        intro hs
        have herr := (deals_by_url_body_ok_shape _ _ _ _ _ _ _ _ _ hb).1
        simp [handle, herr] at hs

/-- Witness for C8: `/deals_by_url` on the unresolvable input `zzz`
reports `bad_url` with an empty item list. -/
theorem claim_C8_witness :
    (deals_by_url "poe2" "Dawn%20of%20the%20Hunt" "zzz" 10
      (CallOutcome.err "X") (CallOutcome.err "X")).items = [] :=
  (claim_C8 "Sapphire Ring" "poe2" "Dawn%20of%20the%20Hunt" "" "zzz" none 10
    (CallOutcome.err "X") (CallOutcome.err "X") (CallOutcome.err "X")
    (CallOutcome.err "X")).2.2 (by rfl)

/-- Claim C9 (confirmed): with the route-validated `limit` (1-60), every
deals response carries at most `limit` items: both the fetched id list
and the mapped result list are truncated to `limit`. -/
theorem claim_C9 (DEFAULT_ITEM REALM LEAGUE_ENC QUERY_ID_ENV url : String)
    (item : Option String) (limit : Nat) (o1 o2 oS oF : CallOutcome)
    (hlo : 1 ≤ limit) (hhi : limit ≤ 60) :
    (deals DEFAULT_ITEM REALM LEAGUE_ENC item limit o1 o2 oF).items.length ≤ limit ∧
    (deals_from_env QUERY_ID_ENV REALM LEAGUE_ENC limit oS oF).items.length ≤ limit ∧
    (deals_by_url REALM LEAGUE_ENC url limit oS oF).items.length ≤ limit := by
  refine ⟨?_, ?_, ?_⟩
  · simp only [deals]
    split
    · simp
    · cases hb : deals_body REALM LEAGUE_ENC limit o1 o2 oF with
      | error e => simp [handle, errResponse_items e]
      | ok r =>
        have := (deals_body_ok_shape _ _ _ _ _ _ _ hb).2
        simpa [handle] using this
  · simp only [deals_from_env]
    split
    · simp
    · cases hb : deals_from_env_body REALM LEAGUE_ENC limit oS oF with
      | error e => simp [handle, errResponse_items e]
      | ok r =>
        have := (deals_from_env_body_ok_shape _ _ _ _ _ _ hb).2
        simpa [handle] using this
  · simp only [deals_by_url]
    split
    · simp
    · cases hb : deals_by_url_body REALM LEAGUE_ENC _ _ _ limit oS oF with
      | error e => simp [handle, errResponse_items e]
      | ok r =>
        have := (deals_by_url_body_ok_shape _ _ _ _ _ _ _ _ _ hb).2
        simpa [handle] using this

/-- Witness for C9: a concrete `/deals` run with `limit = 10` returns at
most 10 items. -/
theorem claim_C9_witness :
    (deals "Sapphire Ring" "poe2" "Dawn%20of%20the%20Hunt" none 10
      (CallOutcome.err "X") (CallOutcome.err "X") (CallOutcome.err "X")).items.length ≤ 10 :=
  (claim_C9 "Sapphire Ring" "poe2" "Dawn%20of%20the%20Hunt" "" "zzz" none 10
    (CallOutcome.err "X") (CallOutcome.err "X") (CallOutcome.err "X")
    (CallOutcome.err "X") (by decide) (by decide)).1

/-- Claim C3 (amended): for `/deals_from_env` and `/deals_by_url`, any
outbound call (search or fetch) answered with a 4xx/5xx status yields a
well-formed body with empty `items`, `error = "http_error:<status>"` and
`details` the first at-most-200 characters of the upstream body; for
`/deals`, the by-type attempt's failure only triggers the by-name
fallback, and the error response arises when the fallback or the fetch
call has a 4xx/5xx status. No upstream failure escapes the handler (the
routes are total functions into `DealsResponse`). -/
theorem claim_C3_amended (DEFAULT_ITEM REALM LEAGUE_ENC QUERY_ID_ENV url : String)
    (item : Option String) (limit : Nat) (st : Nat) (text : String) (body : Json)
    (oF : CallOutcome) (h4 : 400 ≤ st) (h5 : st ≤ 599) :
    (errResponse (PyError.httpError st text) =
      { items := [], error := some ("http_error:" ++ toString st),
        details := some (pytake text 200) }) ∧
    (pytake text 200).length ≤ 200 ∧
    (∀ realm league_enc qid, parse_trade_url REALM LEAGUE_ENC url = some (realm, league_enc, qid) →
      deals_by_url REALM LEAGUE_ENC url limit (CallOutcome.resp ⟨st, text, body⟩) oF =
        errResponse (PyError.httpError st text)) ∧
    (∀ realm league_enc qid,
      parse_trade_url REALM LEAGUE_ENC QUERY_ID_ENV = some (realm, league_enc, qid) →
      deals_from_env QUERY_ID_ENV REALM LEAGUE_ENC limit
        (CallOutcome.resp ⟨st, text, body⟩) oF = errResponse (PyError.httpError st text)) ∧
    (pyStrip (pyOrStr item DEFAULT_ITEM) ≠ "" → ∀ r1 : HttpResponse, r1.status ≠ 200 →
      deals DEFAULT_ITEM REALM LEAGUE_ENC item limit (CallOutcome.resp r1)
        (CallOutcome.resp ⟨st, text, body⟩) oF = errResponse (PyError.httpError st text)) ∧
    (∀ realm league_enc qid, parse_trade_url REALM LEAGUE_ENC url = some (realm, league_enc, qid) →
      ∀ (rS : HttpResponse) (resJ : Json) (ids : List Json) (ss : List String),
        ¬(400 ≤ rS.status ∧ rS.status < 600) →
        dget rS.body "result" Json.null = Except.ok resJ →
        sliceIds resJ limit = Except.ok ids → ids ≠ [] → joinIds ids = Except.ok ss →
        deals_by_url REALM LEAGUE_ENC url limit (CallOutcome.resp rS)
          (CallOutcome.resp ⟨st, text, body⟩) = errResponse (PyError.httpError st text)) ∧
    (∀ realm league_enc qid,
      parse_trade_url REALM LEAGUE_ENC QUERY_ID_ENV = some (realm, league_enc, qid) →
      ∀ (rS : HttpResponse) (resJ : Json) (ids : List Json) (ss : List String),
        ¬(400 ≤ rS.status ∧ rS.status < 600) →
        dget rS.body "result" Json.null = Except.ok resJ →
        sliceIds resJ limit = Except.ok ids → ids ≠ [] → joinIds ids = Except.ok ss →
        deals_from_env QUERY_ID_ENV REALM LEAGUE_ENC limit (CallOutcome.resp rS)
          (CallOutcome.resp ⟨st, text, body⟩) = errResponse (PyError.httpError st text)) ∧
    (pyStrip (pyOrStr item DEFAULT_ITEM) ≠ "" →
      ∀ (r1 : HttpResponse) (qid resJ : Json) (ids : List Json) (ss : List String),
        r1.status = 200 → dget r1.body "id" Json.null = Except.ok qid → jtruthy qid = true →
        dget r1.body "result" Json.null = Except.ok resJ →
        sliceIds resJ limit = Except.ok ids → ids ≠ [] → joinIds ids = Except.ok ss →
        deals DEFAULT_ITEM REALM LEAGUE_ENC item limit (CallOutcome.resp r1) oF
          (CallOutcome.resp ⟨st, text, body⟩) = errResponse (PyError.httpError st text)) := by
  have h5b : st < 600 := by omega
  refine ⟨rfl, ?_, ?_, ?_, ?_, ?_, ?_, ?_⟩
  · show (String.mk (text.data.take 200)).length ≤ 200
    have h1 : (String.mk (text.data.take 200)).length = (text.data.take 200).length := rfl
    rw [h1]
    exact List.length_take_le 200 text.data
  · intro realm league_enc qid hp
    simp only [deals_by_url, hp]
    rw [deals_by_url_body_search_fail REALM LEAGUE_ENC realm league_enc qid limit oF
      st text body h4 h5b]
    rfl
  · intro realm league_enc qid hp
    simp only [deals_from_env, hp]
    rw [deals_from_env_body_search_fail REALM LEAGUE_ENC limit oF st text body h4 h5b]
    rfl
  · intro ht r1 hnot200
    simp only [deals, if_neg ht]
    rw [deals_body_name_fail REALM LEAGUE_ENC limit r1 oF st text body hnot200 h4 h5b]
    rfl
  · intro realm league_enc qid hp rS resJ ids ss hok hres hslice hne hj
    simp only [deals_by_url, hp]
    rw [deals_by_url_body_fetch_fail REALM LEAGUE_ENC realm league_enc qid limit rS resJ
      ids ss st text body hok hres hslice hne hj h4 h5b]
    rfl
  · intro realm league_enc qid hp rS resJ ids ss hok hres hslice hne hj
    simp only [deals_from_env, hp]
    rw [deals_from_env_body_fetch_fail REALM LEAGUE_ENC limit rS resJ ids ss st text body
      hok hres hslice hne hj h4 h5b]
    rfl
  · intro ht r1 qid resJ ids ss h200 hqid htr hres hslice hne hj
    simp only [deals, if_neg ht]
    rw [deals_body_fetch_fail REALM LEAGUE_ENC limit r1 oF qid resJ ids ss st text body
      h200 hqid htr hres hslice hne hj h4 h5b]
    rfl

/-- Witness for C3: a 429 on the by-id search of `/deals_by_url`
(target given as a bare query id) produces the structured error body. -/
theorem claim_C3_witness :
    deals_by_url "poe2" "Dawn%20of%20the%20Hunt" "abc123" 10
      (CallOutcome.resp ⟨429, "rate limited", Json.null⟩) (CallOutcome.err "X") =
      errResponse (PyError.httpError 429 "rate limited") :=
  (claim_C3_amended "Sapphire Ring" "poe2" "Dawn%20of%20the%20Hunt" "" "abc123" none 10
    429 "rate limited" Json.null (CallOutcome.err "X") (by decide) (by decide)).2.2.1
    "poe2" "Dawn%20of%20the%20Hunt" "abc123" (by rfl)

/-- Counterexample for C3 as stated: on `/deals`, the by-type search
attempt fails with 429, yet the endpoint silently falls back to the
by-name attempt, which succeeds — the response carries one item and no
`error` field, where the claim demanded `error = "http_error:429"` with
empty items. -/
theorem claim_C3_cex :
    (deals "Sapphire Ring" "poe2" "Dawn%20of%20the%20Hunt" (some "Ring") 10
      (CallOutcome.resp ⟨429, "rate limited", Json.null⟩)
      (CallOutcome.resp ⟨200, "", Json.obj [("id", Json.str "q1"),
        ("result", Json.arr [Json.str "i1"]), ("total", Json.num 1)]⟩)
      (CallOutcome.resp ⟨200, "", Json.obj [("result",
        Json.arr [Json.obj [("id", Json.str "i1")]])]⟩)).error = none ∧
    (deals "Sapphire Ring" "poe2" "Dawn%20of%20the%20Hunt" (some "Ring") 10
      (CallOutcome.resp ⟨429, "rate limited", Json.null⟩)
      (CallOutcome.resp ⟨200, "", Json.obj [("id", Json.str "q1"),
        ("result", Json.arr [Json.str "i1"]), ("total", Json.num 1)]⟩)
      (CallOutcome.resp ⟨200, "", Json.obj [("result",
        Json.arr [Json.obj [("id", Json.str "i1")]])]⟩)).items.length = 1 := by
  constructor
  · rfl
  · rfl

/-! ## Listing scorer (spec §4.3)

The scorer is described by the specification but is not present in the
source tree of this service variant; it is modelled from the spec, with
chaos-equivalent prices as exact rationals. -/

/-- Modelled from the spec: ordered insertion, the sorting primitive for
the median of the Listing Scorer, which is absent from `src/`. -/
def insertLe (x : ℚ) : List ℚ → List ℚ
  | [] => [x]
  | y :: ys => if x ≤ y then x :: y :: ys else y :: insertLe x ys

/-- Modelled from the spec: insertion sort of the chaos-equivalent
prices (the scorer itself is absent from `src/`). -/
def sortQ (xs : List ℚ) : List ℚ := xs.foldr insertLe []

/-- Modelled from the spec: the median of a price batch — middle element
of the sorted batch, averaging the two middle elements for an even-sized
batch, `0` for an empty one (the scorer is absent from `src/`). -/
def median (xs : List ℚ) : ℚ :=
  let s := sortQ xs
  if s.length = 0 then 0
  else if s.length % 2 = 1 then s.getD (s.length / 2) 0
  else (s.getD (s.length / 2 - 1) 0 + s.getD (s.length / 2) 0) / 2

/-- Modelled from the spec: `marketEstimate` = median of the positive
chaos-equivalent prices of the batch (spec §4.3 steps 1-3; the scorer is
absent from `src/`). -/
def marketEstimate (prices : List ℚ) : ℚ :=
  median (prices.filter fun p => decide (0 < p))

/-- Modelled from the spec: per-listing margin percentage,
`max(0, (marketEstimate - price) / marketEstimate * 100)` when the
estimate is positive, else `0` (spec §4.3 step 4; the scorer is absent
from `src/`). -/
def marginPct (est price : ℚ) : ℚ :=
  if 0 < est then max 0 ((est - price) / est * 100) else 0

/-- Claim C6 (confirmed, against the spec-modelled scorer): the market
estimate is the median of the positive batch prices and the margin
formula is as specified; on the batch `[10, 20, 30]` the estimate is
`20`, and the listing priced `10` has a 50 percent margin. -/
theorem claim_C6 :
    marketEstimate [10, 20, 30] = 20 ∧
    marginPct (marketEstimate [10, 20, 30]) 10 = 50 ∧
    (∀ prices : List ℚ, marketEstimate prices = median (prices.filter fun p => decide (0 < p))) ∧
    (∀ est price : ℚ, 0 < est → marginPct est price = max 0 ((est - price) / est * 100)) ∧
    (∀ est price : ℚ, est ≤ 0 → marginPct est price = 0) := by
  have h1 : marketEstimate [10, 20, 30] = 20 := by
    norm_num [marketEstimate, median, sortQ, insertLe, List.filter]
  refine ⟨h1, ?_, fun prices => rfl, ?_, ?_⟩
  · rw [h1]
    norm_num [marginPct]
  · intro est price h
    simp [marginPct, h]
  · intro est price h
    simp [marginPct, not_lt.mpr h]

/-- Witness for C6: a zero market estimate yields a zero margin, via the
last conjunct of `claim_C6`. -/
theorem claim_C6_witness : marginPct 0 5 = 0 :=
  claim_C6.2.2.2.2 0 5 (by norm_num)
